import Mathlib

/-!
Shallow embedding of the Booking Action Orchestrator of the
cosmetology-bot backend (`app/services/booking_service.py`).

Conventions of the embedding:
* Python `datetime.date` values are `PyDate` records (year, month, day).
* Python `datetime.time` values are minutes since midnight (`Nat < 1440`);
  `datetime.combine(d, t) + timedelta(minutes = k)` followed by `.time()`
  is `(t + k) % 1440`.
* Python `str | None` fields are `Option String`; Python truthiness of such
  a field (`if not x`) is `truthyO`.
* `datetime.strptime` with the formats `"%d.%m.%Y"`, `"%d.%m"` and
  `"%H:%M"` is modelled faithfully after CPython `_strptime`'s regexes
  (`%d` = `3[01]|[12]\d|0[1-9]|[1-9]`, `%m` = `1[0-2]|0[1-9]|[1-9]`,
  `%Y` = four digits, `%H` = `2[0-3]|[0-1]\d|\d`, `%M` = `[0-5]\d|\d`),
  including full-input match and the calendar validation performed by the
  `datetime` constructor.
* The SQLAlchemy session is a `DBState`: the list of `Booking` rows plus
  the next autoincrement id.  Query `.filter(...).first()` /` .all()` are
  `List.find?` / `List.filter` in insertion order; committed mutation of a
  fetched row is a map over the list keyed by the row id.
* External collaborators (the Google-Sheets availability feed, the service
  name normalizer, the regex extraction of per-specialist times and
  procedures from free text) are inputs of the embedded handlers, so every
  theorem below is quantified over all of their possible behaviours.
  Side-effecting feed writes of the reschedule path are recorded in a
  `SheetEffect` trace.
-/

/-- A Python `datetime.date`. -/
structure PyDate where
  year : Nat
  month : Nat
  day : Nat
deriving DecidableEq, Repr

/-- Gregorian leap-year test, as implemented by Python's `datetime`. -/
def isLeapYear (y : Nat) : Bool :=
  y % 4 == 0 && (y % 100 != 0 || y % 400 == 0)

/-- Number of days of month `m` of year `y` (Python `calendar` rule). -/
def daysInMonth (m y : Nat) : Nat :=
  if m == 2 then (if isLeapYear y then 29 else 28)
  else if m == 4 || m == 6 || m == 9 || m == 11 then 30
  else 31

/-- Value of an ASCII decimal digit character (`\d` of the strptime
regexes), `none` on a non-digit; 48 and 57 are the code points of `'0'`
and `'9'`. -/
def digitVal (c : Char) : Option Nat :=
  if 48 ≤ c.toNat ∧ c.toNat ≤ 57 then some (c.toNat - 48) else none

/-- A parsed digit is at most 9. -/
theorem digitVal_le (c : Char) (v : Nat) (h : digitVal c = some v) : v ≤ 9 := by
  unfold digitVal at h
  split at h
  · next hc =>
    cases h
    omega
  · cases h

/-- Tail of `"%d.%m.%Y"`: exactly four digits of a year, end of input,
plus the `datetime` constructor's validation (`year ≥ 1`, day fits the
month). -/
def parseYearEnd (d m : Nat) : List Char → Option (Nat × Nat × Nat)
  | [c1, c2, c3, c4] =>
    match digitVal c1, digitVal c2, digitVal c3, digitVal c4 with
    | some a, some b, some c, some e =>
      let y := 1000 * a + 100 * b + 10 * c + e
      if 1 ≤ y && d ≤ daysInMonth m y then some (d, m, y) else none
    | _, _, _, _ => none
  | _ => none

/-- Month field of `"%d.%m.%Y"` followed by `'.'` and the year: the
CPython `%m` regex accepts `1[0-2]|0[1-9]` (two digits, value 1..12) or a
single digit `[1-9]`. -/
def parseMonthDotYear (d : Nat) (l : List Char) : Option (Nat × Nat × Nat) :=
  (match l with
   | c1 :: c2 :: '.' :: rest =>
     match digitVal c1, digitVal c2 with
     | some a, some b =>
       let m := 10 * a + b
       if 1 ≤ m && m ≤ 12 then parseYearEnd d m rest else none
     | _, _ => none
   | _ => none) <|>
  (match l with
   | c1 :: '.' :: rest =>
     match digitVal c1 with
     | some a => if 1 ≤ a then parseYearEnd d a rest else none
     | none => none
   | _ => none)

/-- `datetime.strptime(s, "%d.%m.%Y")`, returning `(day, month, year)`:
the `%d` regex accepts `3[01]|[12]\d|0[1-9]` (two digits, value 1..31) or
a single digit `[1-9]`. -/
def parseDMYchars (l : List Char) : Option (Nat × Nat × Nat) :=
  (match l with
   | c1 :: c2 :: '.' :: rest =>
     match digitVal c1, digitVal c2 with
     | some a, some b =>
       let d := 10 * a + b
       if 1 ≤ d && d ≤ 31 then parseMonthDotYear d rest else none
     | _, _ => none
   | _ => none) <|>
  (match l with
   | c1 :: '.' :: rest =>
     match digitVal c1 with
     | some a => if 1 ≤ a then parseMonthDotYear a rest else none
     | none => none
   | _ => none)

/-- Month field of `"%d.%m"`: the month ends the input; the parsed pair is
validated against strptime's default year 1900 by the `datetime`
constructor. -/
def parseMonthEnd (d : Nat) (l : List Char) : Option (Nat × Nat) :=
  (match l with
   | [c1, c2] =>
     match digitVal c1, digitVal c2 with
     | some a, some b =>
       let m := 10 * a + b
       if 1 ≤ m && m ≤ 12 && d ≤ daysInMonth m 1900 then some (d, m) else none
     | _, _ => none
   | _ => none) <|>
  (match l with
   | [c1] =>
     match digitVal c1 with
     | some a => if 1 ≤ a && d ≤ daysInMonth a 1900 then some (d, a) else none
     | none => none
   | _ => none)

/-- `datetime.strptime(s, "%d.%m")`, returning `(day, month)`. -/
def parseDMchars (l : List Char) : Option (Nat × Nat) :=
  (match l with
   | c1 :: c2 :: '.' :: rest =>
     match digitVal c1, digitVal c2 with
     | some a, some b =>
       let d := 10 * a + b
       if 1 ≤ d && d ≤ 31 then parseMonthEnd d rest else none
     | _, _ => none
   | _ => none) <|>
  (match l with
   | c1 :: '.' :: rest =>
     match digitVal c1 with
     | some a => if 1 ≤ a then parseMonthEnd a rest else none
     | none => none
   | _ => none)

/-- Minute field of `"%H:%M"`, ending the input: `[0-5]\d` or `\d`. -/
def parseMinuteEnd : List Char → Option Nat
  | [c1, c2] =>
    match digitVal c1, digitVal c2 with
    | some a, some b => if a ≤ 5 then some (10 * a + b) else none
    | _, _ => none
  | [c1] => digitVal c1
  | _ => none

/-- Two-digit hour alternative of `"%H:%M"` (`2[0-3]|[0-1]\d`, i.e. two
digits of value 00..23). -/
def parseHM2 : List Char → Option Nat
  | c1 :: c2 :: ':' :: rest =>
    match digitVal c1, digitVal c2 with
    | some a, some b =>
      if 10 * a + b ≤ 23 then
        (parseMinuteEnd rest).map (fun m => 60 * (10 * a + b) + m)
      else none
    | _, _ => none
  | _ => none

/-- One-digit hour alternative of `"%H:%M"` (the trailing `\d`). -/
def parseHM1 : List Char → Option Nat
  | c1 :: ':' :: rest =>
    match digitVal c1 with
    | some a => (parseMinuteEnd rest).map (fun m => 60 * a + m)
    | none => none
  | _ => none

/-- `datetime.strptime(s, "%H:%M")` as minutes since midnight. -/
def parseHMchars (l : List Char) : Option Nat :=
  parseHM2 l <|> parseHM1 l

/-- A parsed minute field is at most 59. -/
theorem parseMinuteEnd_le (l : List Char) (m : Nat) (h : parseMinuteEnd l = some m) :
    m ≤ 59 := by
  unfold parseMinuteEnd at h
  split at h
  · split at h
    · next a b ha hb =>
      split at h
      · cases h
        have := digitVal_le _ _ hb
        omega
      · cases h
    · cases h
  · next c1 =>
    have := digitVal_le c1 m h
    omega
  · cases h

/-- A successfully parsed `"%H:%M"` time is a valid clock time, below
1440 minutes. -/
theorem parseHMchars_lt (l : List Char) (t : Nat) (h : parseHMchars l = some t) :
    t < 1440 := by
  unfold parseHMchars at h
  rcases h2 : parseHM2 l with _ | v
  · rw [h2] at h
    have h' : parseHM1 l = some t := h
    unfold parseHM1 at h'
    split at h'
    · split at h'
      · next a ha =>
        rcases hm : parseMinuteEnd _ with _ | m
        · rw [hm] at h'; cases h'
        · rw [hm] at h'
          have h'' : some (60 * a + m) = some t := h'
          cases h''
          have h9 := digitVal_le _ _ ha
          have h59 := parseMinuteEnd_le _ _ hm
          omega
      · cases h'
    · cases h'
  · rw [h2] at h
    have hvt : some v = some t := h
    cases hvt
    unfold parseHM2 at h2
    split at h2
    · split at h2
      · split at h2
        · next a b ha hb hle =>
          rcases hm : parseMinuteEnd _ with _ | m
          · rw [hm] at h2; cases h2
          · rw [hm] at h2
            have h2' : some (60 * (10 * a + b) + m) = some t := h2
            cases h2'
            have h59 := parseMinuteEnd_le _ _ hm
            omega
        · cases h2
      · cases h2
    · cases h2

/-- `BookingService._parse_time`: `strptime(s, "%H:%M")` with every
exception (including `TypeError` on a `None` argument) turned into
`None`. -/
def pyParseTimeStr (s : String) : Option Nat := parseHMchars s.toList

/-- `_parse_time` on a nullable string. -/
def pyParseTime : Option String → Option Nat
  | none => none
  | some s => pyParseTimeStr s

/-- `BookingService._parse_date` on a non-null string: branches on
`len(date_str.split('.'))` (that length is one plus the number of `'.'`
occurrences), then `strptime` with `"%d.%m.%Y"`, or with the current year
appended for a two-part date. -/
def pyParseDateStr (nowYear : Nat) (s : String) : Option PyDate :=
  let l := s.toList
  let nparts := l.count '.' + 1
  if nparts == 3 then
    (parseDMYchars l).map (fun p => ⟨p.2.2, p.2.1, p.1⟩)
  else if nparts == 2 then
    (parseDMYchars (l ++ '.' :: (Nat.repr nowYear).toList)).map
      (fun p => ⟨p.2.2, p.2.1, p.1⟩)
  else none

/-- `_parse_date` on a nullable string (a `None` argument raises
`AttributeError`, swallowed by the bare `except`). -/
def pyParseDate (nowYear : Nat) : Option String → Option PyDate
  | none => none
  | some s => pyParseDateStr nowYear s

/-- The inline date parsing of `_activate_booking`: first
`strptime("%d.%m.%Y")`, then on `ValueError` `strptime("%d.%m")` followed
by `.replace(year = datetime.now().year)`. -/
def pyParseDateActivate (nowYear : Nat) (s : String) : Option PyDate :=
  match parseDMYchars s.toList with
  | some p => some ⟨p.2.2, p.2.1, p.1⟩
  | none => (parseDMchars s.toList).map (fun p => ⟨nowYear, p.2, p.1⟩)

/-- Two-digit zero padding of `strftime`. -/
def pad2 (n : Nat) : String :=
  if n < 10 then "0" ++ Nat.repr n else Nat.repr n

/-- `t.strftime("%H:%M")` for a time given as minutes since midnight. -/
def formatTime (t : Nat) : String := pad2 (t / 60) ++ ":" ++ pad2 (t % 60)

/-- Python's `", ".join` / `"; ".join`. -/
def joinSep (sep : String) : List String → String
  | [] => ""
  | [x] => x
  | x :: xs => x ++ sep ++ joinSep sep xs

/-- ASCII lowercasing of one character. -/
def pyLowerChar (c : Char) : Char :=
  if 'A' ≤ c && c ≤ 'Z' then Char.ofNat (c.toNat + 32) else c

/-- Python `str.lower()` (the embedded specialists use ASCII names, for
which per-character ASCII lowercasing agrees with Python). -/
def lowerStr (s : String) : String := ⟨s.data.map pyLowerChar⟩

/-- A row of the `bookings` table (`app.database.Booking`).  `created_at`
is modelled by the insertion counter (timestamps grow with insertion
order). -/
structure Booking where
  id : Nat
  project_id : String
  specialist_name : String
  appointment_date : PyDate
  appointment_time : Nat
  client_id : String
  client_name : Option String
  service_name : Option String
  client_phone : Option String
  duration_minutes : Nat
  status : String
  created_at : Nat
deriving DecidableEq, Repr

/-- The local relational store: committed rows plus the next
autoincrement id (ids start at 1, as in the database). -/
structure DBState where
  bookings : List Booking
  nextId : Nat
deriving DecidableEq, Repr

/-- The empty database. -/
def DBState.empty : DBState := ⟨[], 1⟩

/-- The result dictionary built by the handlers. -/
structure ResultD where
  success : Bool
  message : Option String
  action : Option String := none
  booking_ids : List Nat := []
  record_error : Option String := none
deriving DecidableEq, Repr

/-- `ProjectConfig`: tenant id, roster, and the service → duration-slots
table. -/
structure ProjectCfg where
  project_id : String
  specialists : List String
  services : List (String × Nat)
deriving DecidableEq, Repr

/-- Assoc-list lookup, i.e. a Python `dict` read. -/
def lookupTab (l : List (String × α)) (k : String) : Option α :=
  match l.find? (fun p => p.1 == k) with
  | some p => some p.2
  | none => none

/-- Python `dict.get(key, default)`. -/
def lookupD (l : List (String × α)) (k : String) (dflt : α) : α :=
  match lookupTab l k with
  | some v => v
  | none => dflt

/-- `AvailabilitySnapshot` returned by
`GoogleSheetsService.get_available_slots_async`: per-specialist free and
reserved slot start-time strings, keyed by
`available_slots_<name.lower()>` / `reserved_slots_<name.lower()>`. -/
structure AvailabilitySnapshot where
  slots_by_specialist : List (String × List String)
  reserved_slots_by_specialist : List (String × List String)
deriving DecidableEq, Repr

/-- The `ClaudeMainResponse` fields consumed by the booking handlers. -/
structure ClaudeMainResponse where
  activate_booking : Bool := false
  reject_order : Bool := false
  change_order : Bool := false
  double_booking : Bool := false
  specialists_list : Option (List String) := none
  cosmetolog : Option String := none
  date_order : Option String := none
  time_set_up : Option String := none
  date_reject : Option String := none
  time_reject : Option String := none
  procedure : Option String := none
  name : Option String := none
  phone : Option String := none
deriving DecidableEq, Repr

/-- Python truthiness of a nullable string. -/
def truthyO : Option String → Bool
  | none => false
  | some s => !(s == "")

/-- Python truthiness of a nullable list. -/
def truthyL : Option (List String) → Bool
  | none => false
  | some l => !l.isEmpty

/-- Python `a or b` on nullable strings. -/
def pyOr (a b : Option String) : Option String :=
  if truthyO a then a else b

/-- The length of `specialists_list` (0 when `None`). -/
def specListLen (r : ClaudeMainResponse) : Nat :=
  (r.specialists_list.getD []).length

/-- The unit time-slots `[t, t+30, ...)` (as clock times, wrapping at
midnight) occupied by a booking starting at `t` lasting `n` slots. -/
def slotTimes (t n : Nat) : List Nat :=
  (List.range n).map (fun i => (t + 30 * i) % 1440)

/-- SQLAlchemy `Booking.id != exclude_booking_id` filter; the Python
guard `if exclude_booking_id:` skips it when the argument is `None` (or
`0`, which no row id takes). -/
def passesExclude (exclude : Option Nat) (bid : Nat) : Bool :=
  match exclude with
  | none => true
  | some e => if e == 0 then true else bid != e

/-- `BookingService._is_slot_available`: expands the candidate and every
active booking of that specialist/date into unit slots and tests
intersection.  The `specialist` argument is the nullable
`response.cosmetolog` the callers pass. -/
def isSlotAvailable (st : DBState) (projectId : String) (specialist : Option String)
    (bookingDate : PyDate) (bookingTime : Nat) (durationSlots : Nat)
    (excludeId : Option Nat) : Bool :=
  let occupiedSlots := slotTimes bookingTime durationSlots
  let existing := st.bookings.filter (fun b =>
    b.project_id == projectId && some b.specialist_name == specialist &&
    b.appointment_date == bookingDate && b.status == "active" &&
    passesExclude excludeId b.id)
  existing.all (fun b =>
    (slotTimes b.appointment_time (b.duration_minutes / 30)).all
      (fun s => !occupiedSlots.contains s))

/-- Two active rows of one (tenant, specialist, date) collide when their
`[start, start + duration)` minute intervals intersect. -/
def bookingsConflict (a b : Booking) : Bool :=
  a.status == "active" && b.status == "active" &&
  a.project_id == b.project_id && a.specialist_name == b.specialist_name &&
  a.appointment_date == b.appointment_date &&
  max a.appointment_time b.appointment_time <
    min (a.appointment_time + a.duration_minutes)
        (b.appointment_time + b.duration_minutes)

/-- The spec's §3 invariant on a list of rows: no two active rows of one
(tenant, specialist, date) have overlapping intervals. -/
def conflictFree : List Booking → Bool
  | [] => true
  | b :: rest => rest.all (fun a => !bookingsConflict b a) && conflictFree rest

/-- The duration/normalization step of `_activate_booking` (lines
131-169): a direct service-table hit, else the NLU normalization attempt
(`norm?` is its outcome, `none` modelling an exception), else the 1-slot
default. -/
def resolveService (cfg : ProjectCfg) (proc : Option String) (norm? : Option String) :
    Nat × Option String :=
  if truthyO proc then
    match lookupTab cfg.services (proc.getD "") with
    | some k => (k, proc)
    | none =>
      match norm? with
      | none => (1, proc)
      | some ns =>
        match lookupTab cfg.services ns with
        | some k => (k, some ns)
        | none => (1, some ns)
  else (1, proc)

/-- The per-slot availability scan of `_activate_booking` (lines
199-206): a slot is collected once when absent from the available set and
once more when present in the reserved set. -/
def unavailList (slots avail res : List String) : List String :=
  slots.foldl (fun acc s =>
    acc ++ (if !avail.contains s then [s] else []) ++
           (if res.contains s then [s] else [])) []

/-- The new row committed by a successful `_activate_booking`. -/
def mkSingleRow (cfg : ProjectCfg) (resp : ClaudeMainResponse) (clientId : String)
    (bdate : PyDate) (btime : Nat) (durationSlots : Nat) (normalizedService : Option String)
    (rid : Nat) : Booking :=
  { id := rid, project_id := cfg.project_id,
    specialist_name := resp.cosmetolog.getD "",
    appointment_date := bdate, appointment_time := btime,
    client_id := clientId, client_name := resp.name,
    service_name := normalizedService, client_phone := resp.phone,
    duration_minutes := durationSlots * 30, status := "active",
    created_at := rid }

/-- Append a freshly committed row. -/
def DBState.push (st : DBState) (mk : Nat → Booking) : DBState :=
  { bookings := st.bookings ++ [mk st.nextId], nextId := st.nextId + 1 }

/-- The dict `{specs[0]: base, specs[1]: base+3h}` built by the
double-booking fallback (a repeated key keeps the last value, as a Python
dict does). -/
def fallbackTimes (s0 s1 : String) (t0 t1 : Nat) : List (String × Nat) :=
  if s0 == s1 then [(s0, t1)] else [(s0, t0), (s1, t1)]

/-- The per-specialist time map `_activate_double_booking` ends up using
(lines 1113-1135): the regex extraction's output when it covers every
listed specialist, otherwise the fallback `{first: base time, second:
base time + 3 hours}`; `none` when the fallback finds the base time
unparsable. -/
def doubleUsedTimes (resp : ClaudeMainResponse) (parsedTimes : List (String × Nat)) :
    Option (List (String × Nat)) :=
  match resp.specialists_list with
  | some (s0 :: s1 :: rest) =>
    if parsedTimes.length == (s0 :: s1 :: rest).length then some parsedTimes
    else
      match pyParseTime resp.time_set_up with
      | none => none
      | some t => some (fallbackTimes s0 s1 t ((t + 180) % 1440))
  | _ => none

/-- The availability loop of `_activate_double_booking` (lines
1155-1172): one snapshot fetch per specialist (`none` = the fetch raised,
failing the whole check), collecting `"<name> (<HH:MM>)"` for every
specialist whose requested time is not available or is reserved. -/
def collectOccupied (snapFor : String → Option AvailabilitySnapshot) :
    List (String × Nat) → Option (List String)
  | [] => some []
  | (s, t) :: rest =>
    match snapFor s with
    | none => none
    | some snap =>
      let avail := lookupD snap.slots_by_specialist ("available_slots_" ++ lowerStr s) []
      let res := lookupD snap.reserved_slots_by_specialist ("reserved_slots_" ++ lowerStr s) []
      let rt := formatTime t
      let here := if !avail.contains rt || res.contains rt then [s ++ " (" ++ rt ++ ")"] else []
      (collectOccupied snapFor rest).map (fun tail => here ++ tail)

/-- The rows committed by a successful `_activate_double_booking`: one
per specialist, each with the hardcoded 60-minute duration; `procFor i s`
is the per-specialist service name the regex extraction / procedure
splitting settles on (lines 1193-1210), an input of the embedding. -/
def buildDoubleRows (cfg : ProjectCfg) (resp : ClaudeMainResponse) (clientId : String)
    (bdate : PyDate) (procFor : Nat → String → String) (startId : Nat) :
    Nat → List (String × Nat) → List Booking
  | _, [] => []
  | i, (s, t) :: rest =>
    { id := startId + i, project_id := cfg.project_id, specialist_name := s,
      appointment_date := bdate, appointment_time := t, client_id := clientId,
      client_name := resp.name, service_name := some (procFor i s),
      client_phone := resp.phone, duration_minutes := 60, status := "active",
      created_at := startId + i } :: buildDoubleRows cfg resp clientId bdate procFor startId (i + 1) rest

/-- `BookingService._activate_double_booking`.  Environment inputs:
`parsedTimes` is the output of the regex time extraction
(`_parse_specialist_times_from_response`), `procFor` the per-specialist
procedure resolution, `snapFor` the availability feed. -/
def activateDoubleBooking (cfg : ProjectCfg) (resp : ClaudeMainResponse) (clientId : String)
    (nowYear : Nat) (parsedTimes : List (String × Nat)) (procFor : Nat → String → String)
    (snapFor : String → Option AvailabilitySnapshot) (st : DBState) :
    ResultD × DBState :=
  match resp.specialists_list with
  | some (s0 :: s1 :: rest) =>
    if !truthyO resp.date_order || !truthyO resp.time_set_up then
      ({ success := false, message := some "Недостаточно данных для двойной записи" }, st)
    else
      match doubleUsedTimes resp parsedTimes with
      | none => ({ success := false, message := some "Неверный формат времени" }, st)
      | some specialistTimes =>
        match pyParseDate nowYear resp.date_order with
        | none => ({ success := false, message := some "Неверный формат даты" }, st)
        | some bookingDate =>
          match (s0 :: s1 :: rest).find? (fun s => !cfg.specialists.contains s) with
          | some s =>
            ({ success := false, message := some ("Специалист " ++ s ++ " не найден") }, st)
          | none =>
            match collectOccupied snapFor specialistTimes with
            | none => ({ success := false, message := some "Ошибка проверки доступности" }, st)
            | some occupied =>
              if !occupied.isEmpty then
                ({ success := false,
                   message := some ("Время занято у: " ++ joinSep ", " occupied) }, st)
              else
                let rows := buildDoubleRows cfg resp clientId bookingDate procFor st.nextId 0 specialistTimes
                let summary := joinSep ", " (rows.map (fun b =>
                  b.specialist_name ++ " (" ++ (b.service_name.getD "") ++ ")"))
                ({ success := true,
                   message := some ("Двойная запись создана: " ++ summary),
                   booking_ids := rows.map (·.id) },
                 { bookings := st.bookings ++ rows, nextId := st.nextId + rows.length })
  | _ =>
    ({ success := false, message := some "Недостаточно специалистов для двойной записи" }, st)

/-- `BookingService._activate_booking`: the single-create handler (with
its redirect of double intents to `_activate_double_booking`).
Environment inputs: `snap?` the availability snapshot fetch (`none` = the
fetch raised), `norm?` the NLU service-name normalization outcome, and
the three double-booking environment inputs passed through on
redirect. -/
def activateBooking (cfg : ProjectCfg) (resp : ClaudeMainResponse) (clientId : String)
    (nowYear : Nat) (snap? : Option AvailabilitySnapshot) (norm? : Option String)
    (parsedTimes : List (String × Nat)) (procFor : Nat → String → String)
    (snapFor : String → Option AvailabilitySnapshot) (st : DBState) :
    ResultD × DBState :=
  if resp.double_booking && truthyL resp.specialists_list then
    if !truthyL resp.specialists_list || specListLen resp < 2 ||
        !truthyO resp.date_order || !truthyO resp.time_set_up then
      ({ success := false, message := some "Недостаточно данных для создания двойной записи" }, st)
    else
      activateDoubleBooking cfg resp clientId nowYear parsedTimes procFor snapFor st
  else
    if !truthyO resp.cosmetolog || !truthyO resp.date_order || !truthyO resp.time_set_up then
      ({ success := false, message := some "Недостаточно данных для создания записи" }, st)
    else
      match pyParseDateActivate nowYear (resp.date_order.getD "") with
      | none =>
        ({ success := false,
           message := some ("Неверный формат даты: " ++ resp.date_order.getD "") }, st)
      | some bookingDate =>
        match pyParseTimeStr (resp.time_set_up.getD "") with
        | none =>
          ({ success := false,
             message := some ("Неверный формат времени: " ++ resp.time_set_up.getD "") }, st)
        | some bookingTime =>
          if !cfg.specialists.contains (resp.cosmetolog.getD "") then
            ({ success := false,
               message := some ("Специалист " ++ resp.cosmetolog.getD "" ++ " не найден") }, st)
          else
            let ds := resolveService cfg resp.procedure norm?
            match snap? with
            | none =>
              ({ success := false, message := some "Ошибка проверки доступности",
                 record_error := some "Ошибка проверки" }, st)
            | some snap =>
              let availableSlots := lookupD snap.slots_by_specialist
                ("available_slots_" ++ lowerStr (resp.cosmetolog.getD "")) []
              let reservedSlots := lookupD snap.reserved_slots_by_specialist
                ("reserved_slots_" ++ lowerStr (resp.cosmetolog.getD "")) []
              let slotsToCheck := (slotTimes bookingTime ds.1).map formatTime
              let unavailable := unavailList slotsToCheck availableSlots reservedSlots
              if !unavailable.isEmpty then
                ({ success := false,
                   message := some ("Время " ++ joinSep ", " unavailable ++ " уже занято"),
                   record_error := some ("Слоты недоступны: " ++ joinSep ", " unavailable) }, st)
              else
                ({ success := true, message := none, booking_ids := [st.nextId] },
                 st.push (mkSingleRow cfg resp clientId bookingDate bookingTime ds.1 ds.2))

/-- The `.first()` lookup shared by `_reject_single_booking` and
`_change_single_booking`: the unique active row of (tenant, client,
`response.cosmetolog`, date, time). -/
def findClientBookingAt (st : DBState) (cfg : ProjectCfg) (clientId : String)
    (resp : ClaudeMainResponse) (d : PyDate) (t : Nat) : Option Booking :=
  st.bookings.find? (fun b =>
    b.project_id == cfg.project_id && b.client_id == clientId &&
    some b.specialist_name == resp.cosmetolog &&
    b.appointment_date == d && b.appointment_time == t && b.status == "active")

/-- Committed flip of a fetched row's status to `cancelled`. -/
def cancelById (st : DBState) (bid : Nat) : DBState :=
  { st with bookings := st.bookings.map (fun b =>
      if b.id == bid then { b with status := "cancelled" } else b) }

/-- `BookingService._reject_single_booking`: parse, locate the unique
matching active row, cancel it; a missing row is a not-found failure with
no mutation. -/
def rejectSingleBooking (cfg : ProjectCfg) (resp : ClaudeMainResponse) (clientId : String)
    (nowYear : Nat) (st : DBState) : ResultD × DBState :=
  match pyParseDate nowYear resp.date_reject, pyParseTime resp.time_reject with
  | some d, some t =>
    match findClientBookingAt st cfg clientId resp d t with
    | none => ({ success := false, message := some "Запись не найдена" }, st)
    | some b =>
      ({ success := true, message := some ("Запись отменена: " ++ b.specialist_name),
         booking_ids := [b.id] },
       cancelById st b.id)
  | _, _ => ({ success := false, message := some "Неверный формат даты или времени" }, st)

/-- Trace of the best-effort external-feed writes a reschedule makes. -/
inductive SheetEffect where
  | clearSlot (specialist : String) (d : PyDate) (t : Nat) (durationSlots : Nat)
  | updateSlot (specialist : String) (bookingId : Nat)
  | logTransfer (bookingId : Nat)
deriving DecidableEq, Repr

/-- The `all_bookings_on_old_date` query of `_change_single_booking`. -/
def clientActiveOn (st : DBState) (cfg : ProjectCfg) (clientId : String) (d : PyDate) :
    List Booking :=
  st.bookings.filter (fun b =>
    b.project_id == cfg.project_id && b.client_id == clientId &&
    b.appointment_date == d && b.status == "active")

/-- One committed move of the bulk-transfer loop: only the date (and the
refreshed client name/phone) change; the row keeps its own time. -/
def applyTransfer (resp : ClaudeMainResponse) (newDate : PyDate) (bid : Nat) (st : DBState) :
    DBState :=
  { st with bookings := st.bookings.map (fun x =>
      if x.id == bid then
        { x with appointment_date := newDate,
                 client_name := pyOr resp.name x.client_name,
                 client_phone := pyOr resp.phone x.client_phone }
      else x) }

/-- The per-booking loop of `_transfer_multiple_bookings`: each booking's
new slot is checked with `_is_slot_available` against the session state
(which already reflects the transfers made earlier in the loop, since the
session autoflushes); blocked bookings are recorded as failures and left
untouched, the rest move to the new date keeping their own times. -/
def transferLoop (cfg : ProjectCfg) (resp : ClaudeMainResponse) (newDate : PyDate) :
    List Booking → DBState → List Booking × List String × DBState × List SheetEffect
  | [], st => ([], [], st, [])
  | b :: rest, st =>
    if !isSlotAvailable st cfg.project_id (some b.specialist_name) newDate
        b.appointment_time (b.duration_minutes / 30) (some b.id) then
      let out := transferLoop cfg resp newDate rest st
      (out.1,
       (b.specialist_name ++ " (" ++ formatTime b.appointment_time ++ ") - время занято") :: out.2.1,
       out.2.2.1, out.2.2.2)
    else
      let updated := { b with appointment_date := newDate,
                              client_name := pyOr resp.name b.client_name,
                              client_phone := pyOr resp.phone b.client_phone }
      let out := transferLoop cfg resp newDate rest (applyTransfer resp newDate b.id st)
      (updated :: out.1, out.2.1, out.2.2.1,
       SheetEffect.clearSlot b.specialist_name b.appointment_date b.appointment_time
         (b.duration_minutes / 30) :: out.2.2.2)

/-- `BookingService._transfer_multiple_bookings`. -/
def transferMultipleBookings (cfg : ProjectCfg) (resp : ClaudeMainResponse)
    (newDate : PyDate) (targets : List Booking) (st : DBState) :
    ResultD × DBState × List SheetEffect :=
  let out := transferLoop cfg resp newDate targets st
  let transferred := out.1
  let failed := out.2.1
  let st' := out.2.2.1
  let effs := out.2.2.2
  if transferred.isEmpty then
    ({ success := false,
       message := some ("Ни одна запись не была перенесена: " ++ joinSep "; " failed) },
     st', effs)
  else
    let names := joinSep ", " (transferred.map (fun b =>
      b.specialist_name ++ " (" ++ formatTime b.appointment_time ++ ")"))
    let msg := "Перенесено " ++ Nat.repr transferred.length ++ " записи: " ++ names ++
      (if failed.isEmpty then "" else ". Не удалось: " ++ joinSep "; " failed)
    ({ success := true, message := some msg, booking_ids := transferred.map (·.id) },
     st',
     effs ++ transferred.map (fun b => SheetEffect.updateSlot b.specialist_name b.id) ++
       transferred.map (fun b => SheetEffect.logTransfer b.id))

/-- `BookingService._change_single_booking`: parse both dates; with more
than one active booking on the source date branch into the bulk transfer,
otherwise move the unique matching row after checking the new slot
against the local store. -/
def changeSingleBooking (cfg : ProjectCfg) (resp : ClaudeMainResponse) (clientId : String)
    (nowYear : Nat) (st : DBState) : ResultD × DBState × List SheetEffect :=
  match pyParseDate nowYear resp.date_reject, pyParseDate nowYear resp.date_order with
  | some oldDate, some newDate =>
    let allOld := clientActiveOn st cfg clientId oldDate
    if allOld.length > 1 then
      transferMultipleBookings cfg resp newDate allOld st
    else
      match pyParseTime resp.time_reject, pyParseTime resp.time_set_up with
      | some oldTime, some newTime =>
        match findClientBookingAt st cfg clientId resp oldDate oldTime with
        | none => ({ success := false, message := some "Запись не найдена" }, st, [])
        | some b =>
          if !isSlotAvailable st cfg.project_id resp.cosmetolog newDate newTime
              (b.duration_minutes / 30) (some b.id) then
            ({ success := false, message := some "Новое время уже занято" }, st, [])
          else
            let st' := { st with bookings := st.bookings.map (fun x =>
              if x.id == b.id then
                { x with specialist_name := resp.cosmetolog.getD x.specialist_name,
                         appointment_date := newDate, appointment_time := newTime,
                         client_name := pyOr resp.name x.client_name,
                         service_name := pyOr resp.procedure x.service_name,
                         client_phone := pyOr resp.phone x.client_phone }
              else x) }
            ({ success := true,
               message := some ("Запись перенесена: " ++ resp.cosmetolog.getD b.specialist_name),
               booking_ids := [b.id] },
             st',
             [SheetEffect.clearSlot b.specialist_name b.appointment_date b.appointment_time
                (b.duration_minutes / 30),
              SheetEffect.updateSlot (resp.cosmetolog.getD b.specialist_name) b.id,
              SheetEffect.logTransfer b.id])
      | _, _ => ({ success := false, message := some "Неверный формат времени" }, st, [])
  | _, _ => ({ success := false, message := some "Неверный формат даты" }, st, [])

/-- Stable insertion used to model Python's stable
`sorted(..., key=created_at, reverse=True)`: a new element goes after
every already-placed element with an equal or larger key. -/
def insertByCreatedDesc (x : Booking) : List Booking → List Booking
  | [] => [x]
  | y :: ys => if x.created_at ≤ y.created_at then y :: insertByCreatedDesc x ys
               else x :: y :: ys

/-- `sorted(old_bookings, key=lambda x: x.created_at, reverse=True)`. -/
def sortByCreatedDesc (l : List Booking) : List Booking :=
  l.foldl (fun acc b => insertByCreatedDesc b acc) []

/-- The in-place update loop of `_change_double_booking`: row `i` gets
specialist `specialists_list[i]` and the shared new date/time. -/
def applyPairUpdate (resp : ClaudeMainResponse) (newDate : PyDate) (newTime : Nat) :
    List (Booking × String) → DBState → DBState
  | [], st => st
  | (b, sNew) :: rest, st =>
    applyPairUpdate resp newDate newTime rest
      { st with bookings := st.bookings.map (fun x =>
          if x.id == b.id then
            { x with specialist_name := sNew, appointment_date := newDate,
                     appointment_time := newTime,
                     client_name := pyOr resp.name x.client_name,
                     service_name := pyOr resp.procedure x.service_name,
                     client_phone := pyOr resp.phone x.client_phone }
          else x) }

/-- The active-rows query of `_change_double_booking` (all of the
client's active rows, any date). -/
def clientActiveAll (st : DBState) (cfg : ProjectCfg) (clientId : String) : List Booking :=
  st.bookings.filter (fun b =>
    b.project_id == cfg.project_id && b.client_id == clientId && b.status == "active")

/-- `BookingService._change_double_booking`.  `sheetsAvail` is the
external feed's `is_slot_available_in_sheets_async`.  If either
specialist's new slot is unavailable the whole operation fails with both
rows unchanged; otherwise the client's two most recent active rows are
moved to the shared new date/time. -/
def changeDoubleBooking (cfg : ProjectCfg) (resp : ClaudeMainResponse) (clientId : String)
    (nowYear : Nat) (sheetsAvail : String → PyDate → Nat → Bool) (st : DBState) :
    ResultD × DBState :=
  match resp.specialists_list with
  | some (s1 :: s2 :: rest) =>
    let oldBookings := clientActiveAll st cfg clientId
    if oldBookings.isEmpty then
      ({ success := false, message := some "Активные записи не найдены" }, st)
    else
      match pyParseDate nowYear resp.date_order, pyParseTime resp.time_set_up with
      | some newDate, some newTime =>
        let slot1 := sheetsAvail s1 newDate newTime
        let slot2 := sheetsAvail s2 newDate newTime
        if !slot1 || !slot2 then
          let occupied := (if !slot1 then [s1] else []) ++ (if !slot2 then [s2] else [])
          ({ success := false,
             message := some ("Новое время занято у мастера(ов): " ++ joinSep ", " occupied) },
           st)
        else
          let toChange := (sortByCreatedDesc oldBookings).take 2
          if toChange.length < 2 then
            ({ success := false,
               message := some "Недостаточно записей для переноса в двойную запись" }, st)
          else
            let st' := applyPairUpdate resp newDate newTime (toChange.zip (s1 :: s2 :: rest)) st
            ({ success := true,
               message := some ("Двойная запись перенесена: " ++ s1 ++ " + " ++ s2),
               booking_ids := toChange.map (·.id) }, st')
      | _, _ => ({ success := false, message := some "Неверный формат новой даты или времени" }, st)
  | _ =>
    ({ success := false, message := some "Недостаточно специалистов для переноса двойной записи" }, st)

/-- Outcome of each handler call as the Dispatcher boundary sees it: a
returned result dictionary, or a raised exception carrying `str(e)`. -/
structure HandlerEnv where
  activateDouble : Except String ResultD
  activateSingle : Except String ResultD
  onReject : Except String ResultD
  onChange : Except String ResultD

/-- Which handler call `process_booking_action` makes and its outcome;
`none` when no action flag is set. -/
def selectedOutcome (env : HandlerEnv) (resp : ClaudeMainResponse) :
    Option (Except String ResultD) :=
  if resp.activate_booking then
    some (if resp.double_booking && truthyL resp.specialists_list then env.activateDouble
          else env.activateSingle)
  else if resp.reject_order then some env.onReject
  else if resp.change_order then some env.onChange
  else none

/-- `BookingService.process_booking_action`: route on the mutually
exclusive action flags, stamp the action name into the routed handler's
result, and convert any exception raised below into
`{success: false, action: "error"}` instead of propagating it. -/
def processBookingAction (env : HandlerEnv) (resp : ClaudeMainResponse) : ResultD :=
  match selectedOutcome env resp with
  | some (Except.error e) =>
    { success := false, message := some ("Ошибка при обработке заказа: " ++ e),
      action := some "error" }
  | some (Except.ok r) =>
    { r with action := some (if resp.activate_booking then "activate"
                             else if resp.reject_order then "reject" else "change") }
  | none =>
    { success := true, message := some "No booking action required", action := some "none" }

/-! ## Concrete fixtures used by the scenario theorems -/

/-- A tenant with two specialists and one configured two-slot service. -/
def sampleCfg : ProjectCfg :=
  { project_id := "p1", specialists := ["Olga", "Anna"], services := [("Massage", 2)] }

/-- A minimal committed active 30-minute row. -/
def sampleRow (i : Nat) (cl sp : String) (d : PyDate) (t : Nat) : Booking :=
  { id := i, project_id := "p1", specialist_name := sp, appointment_date := d,
    appointment_time := t, client_id := cl, client_name := none, service_name := none,
    client_phone := none, duration_minutes := 30, status := "active", created_at := i }

/-! ## Claim theorems -/

/-- Claim C3: the dispatcher `process_booking_action` always returns a
result record and never propagates a handler exception: a raised handler
exception becomes `{success: false, action: "error"}`.  (Totality of the
embedded dispatcher is the second conjunct; in the embedding every Lean
function is total, mirroring the `try/except Exception` boundary that
makes the Python coroutine return on every path.) -/
theorem dispatcher_wraps_exceptions :
    (∀ (env : HandlerEnv) (resp : ClaudeMainResponse) (e : String),
        selectedOutcome env resp = some (Except.error e) →
        processBookingAction env resp =
          { success := false, message := some ("Ошибка при обработке заказа: " ++ e),
            action := some "error" }) ∧
    (∀ (env : HandlerEnv) (resp : ClaudeMainResponse), ∃ r : ResultD,
        processBookingAction env resp = r) := by
  constructor
  · intro env resp e h
    simp [processBookingAction, h]
  · intro env resp
    exact ⟨_, rfl⟩

/-- Witness for C3: a raising activate handler is turned into the error
result. -/
theorem dispatcher_wraps_exceptions_witness :
    processBookingAction
      ⟨Except.error "boom", Except.error "boom", Except.error "boom", Except.error "boom"⟩
      { activate_booking := true } =
      { success := false, message := some ("Ошибка при обработке заказа: " ++ "boom"),
        action := some "error" } :=
  dispatcher_wraps_exceptions.1
    ⟨Except.error "boom", Except.error "boom", Except.error "boom", Except.error "boom"⟩
    { activate_booking := true } "boom" rfl

/-- Counterexample to C5: `_parse_date` rejects both the ISO format
`YYYY-MM-DD` and the slash format `DD/MM/YYYY` that the claim says it
accepts (both contain no `'.'`, so the split-count guard returns `None`),
so neither parses to 2025-03-05. -/
theorem parse_date_iso_slash_cex :
    pyParseDate 2025 (some "2025-03-05") = none ∧
    pyParseDate 2025 (some "05/03/2025") = none := by
  constructor <;> rfl

/-- Claim C5 (amended): `_parse_date` accepts exactly the two dotted
formats `DD.MM.YYYY` and `DD.MM` (year defaulted to the current year):
`"05.03"` under current year 2025 and `"05.03.2025"` both give
2025-03-05, while `"2025-03-05"`, `"05/03/2025"` and `"13/13/2025"` all
return `None` — in general every string without a `'.'` returns
`None`. -/
theorem parse_date_two_formats :
    pyParseDate 2025 (some "05.03") = some ⟨2025, 3, 5⟩ ∧
    pyParseDate 2025 (some "05.03.2025") = some ⟨2025, 3, 5⟩ ∧
    pyParseDate 2025 (some "2025-03-05") = none ∧
    pyParseDate 2025 (some "05/03/2025") = none ∧
    pyParseDate 2025 (some "13/13/2025") = none ∧
    (∀ (y : Nat) (s : String), s.toList.count '.' = 0 → pyParseDate y (some s) = none) := by
  refine ⟨rfl, rfl, rfl, rfl, rfl, ?_⟩
  intro y s h
  have h' : List.count '.' s.data = 0 := h
  simp [pyParseDate, pyParseDateStr, h']

/-- Witness for C5's universally quantified conjunct at a concrete
dot-free string. -/
theorem parse_date_two_formats_witness :
    pyParseDate 2024 (some "31-12-2024") = none :=
  parse_date_two_formats.2.2.2.2.2 2024 "31-12-2024" (by decide)

/-- Claim C9: a single cancel whose (tenant, client, specialist, date,
time) matches no active row — because the row never existed or was
already cancelled — returns the not-found failure and leaves every row
untouched, which makes repeating a cancel idempotent. -/
theorem cancel_not_found_no_mutation
    (cfg : ProjectCfg) (resp : ClaudeMainResponse) (clientId : String)
    (nowYear : Nat) (st : DBState) (d : PyDate) (t : Nat)
    (hd : pyParseDate nowYear resp.date_reject = some d)
    (ht : pyParseTime resp.time_reject = some t)
    (hno : findClientBookingAt st cfg clientId resp d t = none) :
    (rejectSingleBooking cfg resp clientId nowYear st).1.success = false ∧
    (rejectSingleBooking cfg resp clientId nowYear st).1.message = some "Запись не найдена" ∧
    (rejectSingleBooking cfg resp clientId nowYear st).2 = st := by
  simp [rejectSingleBooking, hd, ht, hno]

/-- Witness for C9: cancelling a row that is already cancelled changes
nothing and reports not-found. -/
theorem cancel_not_found_no_mutation_witness :
    (rejectSingleBooking sampleCfg
        { cosmetolog := some "Olga", date_reject := some "05.03.2025",
          time_reject := some "11:00" } "c" 2025
        ⟨[{ sampleRow 1 "c" "Olga" ⟨2025, 3, 5⟩ 660 with status := "cancelled" }], 2⟩).1.success
      = false ∧
    (rejectSingleBooking sampleCfg
        { cosmetolog := some "Olga", date_reject := some "05.03.2025",
          time_reject := some "11:00" } "c" 2025
        ⟨[{ sampleRow 1 "c" "Olga" ⟨2025, 3, 5⟩ 660 with status := "cancelled" }], 2⟩).1.message
      = some "Запись не найдена" ∧
    (rejectSingleBooking sampleCfg
        { cosmetolog := some "Olga", date_reject := some "05.03.2025",
          time_reject := some "11:00" } "c" 2025
        ⟨[{ sampleRow 1 "c" "Olga" ⟨2025, 3, 5⟩ 660 with status := "cancelled" }], 2⟩).2
      = ⟨[{ sampleRow 1 "c" "Olga" ⟨2025, 3, 5⟩ 660 with status := "cancelled" }], 2⟩ :=
  cancel_not_found_no_mutation sampleCfg
    { cosmetolog := some "Olga", date_reject := some "05.03.2025", time_reject := some "11:00" }
    "c" 2025 ⟨[{ sampleRow 1 "c" "Olga" ⟨2025, 3, 5⟩ 660 with status := "cancelled" }], 2⟩
    ⟨2025, 3, 5⟩ 660 (by decide) (by decide) (by decide)

/-- Counterexample to C6: client "c" holds active rows with Olga
(05.03.2025 11:00) and Anna (05.03.2025 12:00); a double reschedule to
06.03.2025 15:00 finds Olga's new slot free but Anna's busy.  The claim
says Olga's row is still moved; the code fails the whole operation and
leaves both rows — in particular Olga's — unchanged. -/
theorem double_reschedule_partial_cex :
    (changeDoubleBooking sampleCfg
        { double_booking := true, specialists_list := some ["Olga", "Anna"],
          date_order := some "06.03.2025", time_set_up := some "15:00" }
        "c" 2025 (fun s _ _ => s == "Olga")
        ⟨[sampleRow 1 "c" "Olga" ⟨2025, 3, 5⟩ 660,
          sampleRow 2 "c" "Anna" ⟨2025, 3, 5⟩ 720], 3⟩).1.success = false ∧
    (changeDoubleBooking sampleCfg
        { double_booking := true, specialists_list := some ["Olga", "Anna"],
          date_order := some "06.03.2025", time_set_up := some "15:00" }
        "c" 2025 (fun s _ _ => s == "Olga")
        ⟨[sampleRow 1 "c" "Olga" ⟨2025, 3, 5⟩ 660,
          sampleRow 2 "c" "Anna" ⟨2025, 3, 5⟩ 720], 3⟩).2 =
      ⟨[sampleRow 1 "c" "Olga" ⟨2025, 3, 5⟩ 660,
        sampleRow 2 "c" "Anna" ⟨2025, 3, 5⟩ 720], 3⟩ := by
  constructor <;> rfl

/-- Claim C6 (amended): in a double reschedule, if either specialist's
new slot is reported unavailable by the external feed, the whole
operation fails: no row of either leg is updated, and the failure message
lists exactly the specialists whose slots were unavailable. -/
theorem double_reschedule_all_or_nothing
    (cfg : ProjectCfg) (resp : ClaudeMainResponse) (clientId : String) (nowYear : Nat)
    (sheetsAvail : String → PyDate → Nat → Bool) (st : DBState)
    (s1 s2 : String) (rest : List String) (newD : PyDate) (newT : Nat)
    (hs : resp.specialists_list = some (s1 :: s2 :: rest))
    (hne : (clientActiveAll st cfg clientId).isEmpty = false)
    (hd : pyParseDate nowYear resp.date_order = some newD)
    (ht : pyParseTime resp.time_set_up = some newT)
    (hbad : sheetsAvail s1 newD newT = false ∨ sheetsAvail s2 newD newT = false) :
    (changeDoubleBooking cfg resp clientId nowYear sheetsAvail st).1.success = false ∧
    (changeDoubleBooking cfg resp clientId nowYear sheetsAvail st).2 = st ∧
    (changeDoubleBooking cfg resp clientId nowYear sheetsAvail st).1.message =
      some ("Новое время занято у мастера(ов): " ++ joinSep ", "
        ((if !(sheetsAvail s1 newD newT) then [s1] else []) ++
         (if !(sheetsAvail s2 newD newT) then [s2] else []))) := by
  rcases hbad with hb | hb <;>
    simp [changeDoubleBooking, hs, hne, hd, ht, hb]

/-- Witness for C6's amended theorem at the counterexample scenario. -/
theorem double_reschedule_all_or_nothing_witness :
    (changeDoubleBooking sampleCfg
        { double_booking := true, specialists_list := some ["Olga", "Anna"],
          date_order := some "06.03.2025", time_set_up := some "15:00" }
        "c" 2025 (fun s _ _ => s == "Olga")
        ⟨[sampleRow 1 "c" "Olga" ⟨2025, 3, 5⟩ 660,
          sampleRow 2 "c" "Anna" ⟨2025, 3, 5⟩ 720], 3⟩).1.success = false ∧
    (changeDoubleBooking sampleCfg
        { double_booking := true, specialists_list := some ["Olga", "Anna"],
          date_order := some "06.03.2025", time_set_up := some "15:00" }
        "c" 2025 (fun s _ _ => s == "Olga")
        ⟨[sampleRow 1 "c" "Olga" ⟨2025, 3, 5⟩ 660,
          sampleRow 2 "c" "Anna" ⟨2025, 3, 5⟩ 720], 3⟩).2 =
      ⟨[sampleRow 1 "c" "Olga" ⟨2025, 3, 5⟩ 660,
        sampleRow 2 "c" "Anna" ⟨2025, 3, 5⟩ 720], 3⟩ ∧
    (changeDoubleBooking sampleCfg
        { double_booking := true, specialists_list := some ["Olga", "Anna"],
          date_order := some "06.03.2025", time_set_up := some "15:00" }
        "c" 2025 (fun s _ _ => s == "Olga")
        ⟨[sampleRow 1 "c" "Olga" ⟨2025, 3, 5⟩ 660,
          sampleRow 2 "c" "Anna" ⟨2025, 3, 5⟩ 720], 3⟩).1.message =
      some ("Новое время занято у мастера(ов): " ++ joinSep ", "
        ((if !((fun (s : String) (_ : PyDate) (_ : Nat) => s == "Olga") "Olga" ⟨2025, 3, 6⟩ 900)
            then ["Olga"] else []) ++
         (if !((fun (s : String) (_ : PyDate) (_ : Nat) => s == "Olga") "Anna" ⟨2025, 3, 6⟩ 900)
            then ["Anna"] else []))) :=
  double_reschedule_all_or_nothing sampleCfg
    { double_booking := true, specialists_list := some ["Olga", "Anna"],
      date_order := some "06.03.2025", time_set_up := some "15:00" }
    "c" 2025 (fun s _ _ => s == "Olga")
    ⟨[sampleRow 1 "c" "Olga" ⟨2025, 3, 5⟩ 660,
      sampleRow 2 "c" "Anna" ⟨2025, 3, 5⟩ 720], 3⟩
    "Olga" "Anna" [] ⟨2025, 3, 6⟩ 900 rfl (by decide) (by decide) (by decide)
    (Or.inr (by decide))

/-- A time map in use implies the intent carried at least two
specialists. -/
theorem doubleUsedTimes_shape (resp : ClaudeMainResponse)
    (parsedTimes : List (String × Nat)) (l : List (String × Nat))
    (h : doubleUsedTimes resp parsedTimes = some l) :
    ∃ s0 s1 rest, resp.specialists_list = some (s0 :: s1 :: rest) := by
  unfold doubleUsedTimes at h
  split at h
  · next s0 s1 rest heq => exact ⟨s0, s1, rest, heq⟩
  · cases h

/-- If some entry of the per-specialist time map fails its availability
test, the occupied list collected by a completed check loop is
nonempty. -/
theorem collectOccupied_bad_ne_nil
    (snapFor : String → Option AvailabilitySnapshot) (s : String) (t : Nat)
    (snap : AvailabilitySnapshot)
    (hsnap : snapFor s = some snap)
    (hbad : (lookupD snap.slots_by_specialist ("available_slots_" ++ lowerStr s) []).contains
              (formatTime t) = false ∨
            (lookupD snap.reserved_slots_by_specialist ("reserved_slots_" ++ lowerStr s) []).contains
              (formatTime t) = true) :
    ∀ (l : List (String × Nat)) (occ : List String),
      (s, t) ∈ l → collectOccupied snapFor l = some occ → occ ≠ [] := by
  intro l
  induction l with
  | nil => intro occ hm; cases hm
  | cons hd tl ih =>
    intro occ hm hc
    obtain ⟨s', t'⟩ := hd
    rcases List.mem_cons.mp hm with hEq | hTl
    · obtain ⟨h1, h2⟩ := Prod.mk.injEq .. ▸ hEq
      subst h1; subst h2
      rw [collectOccupied, hsnap] at hc
      rcases hcc : collectOccupied snapFor tl with _ | tail
      · rw [hcc] at hc; cases hc
      · rw [hcc] at hc
        have hcond : (!(lookupD snap.slots_by_specialist
              ("available_slots_" ++ lowerStr s) []).contains (formatTime t) ||
            (lookupD snap.reserved_slots_by_specialist
              ("reserved_slots_" ++ lowerStr s) []).contains (formatTime t)) = true := by
          rcases hbad with hb | hb
          · rw [hb]; rfl
          · simp only [hb, Bool.or_true]
        simp only [hcond, if_true, Option.map_some] at hc
        cases hc
        simp
    · rw [collectOccupied] at hc
      rcases hsf : snapFor s' with _ | sn
      · rw [hsf] at hc; cases hc
      · rw [hsf] at hc
        rcases hcc : collectOccupied snapFor tl with _ | tail
        · rw [hcc] at hc; cases hc
        · rw [hcc] at hc
          simp only [Option.map_some] at hc
          have htail := ih tail hTl hcc
          cases hc
          intro hnil
          exact htail (List.append_eq_nil.mp hnil).2

/-- Claim C2: a double-booking create whose availability check reports
any specialist unavailable at their respective time (their slot missing
from the available-set or present in the reserved-set of the snapshot
fetched for them) fails with zero rows inserted: the database state is
returned unchanged. -/
theorem double_create_unavailable_no_insert
    (cfg : ProjectCfg) (resp : ClaudeMainResponse) (clientId : String) (nowYear : Nat)
    (parsedTimes : List (String × Nat)) (procFor : Nat → String → String)
    (snapFor : String → Option AvailabilitySnapshot) (st : DBState)
    (l : List (String × Nat)) (s : String) (t : Nat) (snap : AvailabilitySnapshot)
    (hl : doubleUsedTimes resp parsedTimes = some l)
    (hmem : (s, t) ∈ l)
    (hsnap : snapFor s = some snap)
    (hbad : (lookupD snap.slots_by_specialist ("available_slots_" ++ lowerStr s) []).contains
              (formatTime t) = false ∨
            (lookupD snap.reserved_slots_by_specialist ("reserved_slots_" ++ lowerStr s) []).contains
              (formatTime t) = true) :
    (activateDoubleBooking cfg resp clientId nowYear parsedTimes procFor snapFor st).1.success
      = false ∧
    (activateDoubleBooking cfg resp clientId nowYear parsedTimes procFor snapFor st).2 = st := by
  unfold activateDoubleBooking
  split
  · split
    · exact ⟨rfl, rfl⟩
    · split
      · exact ⟨rfl, rfl⟩
      · next specialistTimes heq =>
        split
        · exact ⟨rfl, rfl⟩
        · split
          · exact ⟨rfl, rfl⟩
          · split
            · exact ⟨rfl, rfl⟩
            · next occupied hocc =>
              have hst : specialistTimes = l := by
                rw [heq] at hl; exact Option.some.inj hl
              subst hst
              have hne := collectOccupied_bad_ne_nil snapFor s t snap hsnap hbad
                specialistTimes occupied hmem hocc
              have hemp : occupied.isEmpty = false := by
                cases occupied with
                | nil => exact absurd rfl hne
                | cons a as => rfl
              rw [if_pos (by rw [hemp]; rfl)]
              exact ⟨rfl, rfl⟩
  · exact ⟨rfl, rfl⟩

/-- Witness for C2: Anna's 14:00 slot is reserved, so the double create
for Olga (11:00) and Anna (14:00) inserts nothing. -/
theorem double_create_unavailable_no_insert_witness :
    (activateDoubleBooking sampleCfg
        { double_booking := true, specialists_list := some ["Olga", "Anna"],
          date_order := some "05.03.2025", time_set_up := some "11:00" }
        "c" 2025 [("Olga", 660), ("Anna", 840)] (fun _ _ => "Proc")
        (fun _ => some { slots_by_specialist :=
                           [("available_slots_olga", ["11:00"]),
                            ("available_slots_anna", ["14:00"])],
                         reserved_slots_by_specialist :=
                           [("reserved_slots_anna", ["14:00"])] })
        DBState.empty).1.success = false ∧
    (activateDoubleBooking sampleCfg
        { double_booking := true, specialists_list := some ["Olga", "Anna"],
          date_order := some "05.03.2025", time_set_up := some "11:00" }
        "c" 2025 [("Olga", 660), ("Anna", 840)] (fun _ _ => "Proc")
        (fun _ => some { slots_by_specialist :=
                           [("available_slots_olga", ["11:00"]),
                            ("available_slots_anna", ["14:00"])],
                         reserved_slots_by_specialist :=
                           [("reserved_slots_anna", ["14:00"])] })
        DBState.empty).2 = DBState.empty :=
  double_create_unavailable_no_insert sampleCfg
    { double_booking := true, specialists_list := some ["Olga", "Anna"],
      date_order := some "05.03.2025", time_set_up := some "11:00" }
    "c" 2025 [("Olga", 660), ("Anna", 840)] (fun _ _ => "Proc")
    (fun _ => some { slots_by_specialist :=
                       [("available_slots_olga", ["11:00"]),
                        ("available_slots_anna", ["14:00"])],
                     reserved_slots_by_specialist :=
                       [("reserved_slots_anna", ["14:00"])] })
    DBState.empty [("Olga", 660), ("Anna", 840)] "Anna" 840
    { slots_by_specialist :=
        [("available_slots_olga", ["11:00"]), ("available_slots_anna", ["14:00"])],
      reserved_slots_by_specialist := [("reserved_slots_anna", ["14:00"])] }
    (by decide) (by decide) rfl (Or.inr (by decide))

/-- Every row built by the double-create insertion loop carries the
hardcoded 60-minute duration. -/
theorem buildDoubleRows_duration (cfg : ProjectCfg) (resp : ClaudeMainResponse)
    (clientId : String) (bdate : PyDate) (procFor : Nat → String → String) (startId : Nat) :
    ∀ (l : List (String × Nat)) (i : Nat) (b : Booking),
      b ∈ buildDoubleRows cfg resp clientId bdate procFor startId i l →
      b.duration_minutes = 60 := by
  intro l
  induction l with
  | nil => intro i b hb; cases hb
  | cons hd tl ih =>
    intro i b hb
    obtain ⟨s, t⟩ := hd
    rw [buildDoubleRows] at hb
    rcases List.mem_cons.mp hb with h | h
    · subst h; rfl
    · exact ih (i + 1) b h

/-- Claim C10: every Appointment row inserted by the double-booking
create path has `duration_minutes = 60` (2 slot units), for every
requested service and every configured service table; the single-booking
create path instead takes its duration from the service table
(`30 * k` minutes for a service configured at `k` slots). -/
theorem double_create_duration_sixty :
    (∀ (cfg : ProjectCfg) (resp : ClaudeMainResponse) (clientId : String) (nowYear : Nat)
        (parsedTimes : List (String × Nat)) (procFor : Nat → String → String)
        (snapFor : String → Option AvailabilitySnapshot) (st : DBState) (b : Booking),
        b ∈ (activateDoubleBooking cfg resp clientId nowYear parsedTimes procFor snapFor
              st).2.bookings →
        b ∈ st.bookings ∨ b.duration_minutes = 60) ∧
    (∀ (cfg : ProjectCfg) (resp : ClaudeMainResponse) (clientId : String) (nowYear : Nat)
        (snap? : Option AvailabilitySnapshot) (norm? : Option String)
        (parsedTimes : List (String × Nat)) (procFor : Nat → String → String)
        (snapFor : String → Option AvailabilitySnapshot) (st : DBState) (b : Booking)
        (p : String) (k : Nat),
        resp.double_booking = false →
        resp.procedure = some p →
        truthyO resp.procedure = true →
        lookupTab cfg.services p = some k →
        b ∈ (activateBooking cfg resp clientId nowYear snap? norm? parsedTimes procFor snapFor
              st).2.bookings →
        b ∈ st.bookings ∨ b.duration_minutes = k * 30) := by
  constructor
  · intro cfg resp clientId nowYear pT pF sF st b hb
    unfold activateDoubleBooking at hb
    split at hb
    · split at hb
      · exact Or.inl hb
      · split at hb
        · exact Or.inl hb
        · split at hb
          · exact Or.inl hb
          · split at hb
            · exact Or.inl hb
            · split at hb
              · exact Or.inl hb
              · split at hb
                · exact Or.inl hb
                · simp only [List.mem_append] at hb
                  rcases hb with h | h
                  · exact Or.inl h
                  · exact Or.inr (buildDoubleRows_duration _ _ _ _ _ _ _ _ _ h)
    · exact Or.inl hb
  · intro cfg resp clientId nowYear snap? norm? pT pF sF st b p k hdb hp htr hlk hb
    have hds : resolveService cfg resp.procedure norm? = (k, some p) := by
      rw [hp]
      unfold resolveService
      rw [if_pos (hp ▸ htr)]
      simp only [Option.getD_some, hlk]
    unfold activateBooking at hb
    rw [hdb] at hb
    rw [if_neg (by simp)] at hb
    split at hb
    · exact Or.inl hb
    · split at hb
      · exact Or.inl hb
      · split at hb
        · exact Or.inl hb
        · split at hb
          · exact Or.inl hb
          · split at hb
            · exact Or.inl hb
            · simp only [hds] at hb
              split at hb
              · exact Or.inl hb
              · simp only [DBState.push, List.mem_append, List.mem_singleton] at hb
                rcases hb with h | h
                · exact Or.inl h
                · subst h
                  exact Or.inr rfl

/-- Witness for C10: the Olga row of a successful double create has
duration 60 although "Proc" is not in the service table, and the single
create of the configured 2-slot "Massage" has duration 2 * 30. -/
theorem double_create_duration_sixty_witness :
    (({ id := 1, project_id := "p1", specialist_name := "Olga",
        appointment_date := ⟨2025, 3, 5⟩, appointment_time := 660, client_id := "c",
        client_name := none, service_name := some "Proc", client_phone := none,
        duration_minutes := 60, status := "active", created_at := 1 } : Booking)
        ∈ DBState.empty.bookings ∨
      ({ id := 1, project_id := "p1", specialist_name := "Olga",
         appointment_date := ⟨2025, 3, 5⟩, appointment_time := 660, client_id := "c",
         client_name := none, service_name := some "Proc", client_phone := none,
         duration_minutes := 60, status := "active", created_at := 1 } : Booking).duration_minutes
        = 60) ∧
    (({ id := 1, project_id := "p1", specialist_name := "Olga",
        appointment_date := ⟨2025, 3, 5⟩, appointment_time := 660, client_id := "c",
        client_name := none, service_name := some "Massage", client_phone := none,
        duration_minutes := 60, status := "active", created_at := 1 } : Booking)
        ∈ DBState.empty.bookings ∨
      ({ id := 1, project_id := "p1", specialist_name := "Olga",
         appointment_date := ⟨2025, 3, 5⟩, appointment_time := 660, client_id := "c",
         client_name := none, service_name := some "Massage", client_phone := none,
         duration_minutes := 60, status := "active", created_at := 1 } : Booking).duration_minutes
        = 2 * 30) :=
  ⟨double_create_duration_sixty.1 sampleCfg
      { double_booking := true, specialists_list := some ["Olga", "Anna"],
        date_order := some "05.03.2025", time_set_up := some "11:00" }
      "c" 2025 [("Olga", 660), ("Anna", 840)] (fun _ _ => "Proc")
      (fun _ => some { slots_by_specialist :=
                         [("available_slots_olga", ["11:00"]),
                          ("available_slots_anna", ["14:00"])],
                       reserved_slots_by_specialist := [] })
      DBState.empty _ (by decide),
   double_create_duration_sixty.2 sampleCfg
      { cosmetolog := some "Olga", date_order := some "05.03.2025",
        time_set_up := some "11:00", procedure := some "Massage" }
      "c" 2025
      (some { slots_by_specialist := [("available_slots_olga", ["11:00", "11:30"])],
              reserved_slots_by_specialist := [] })
      none [] (fun _ _ => "") (fun _ => none) DBState.empty _ "Massage" 2
      rfl rfl (by decide) (by decide) (by decide)⟩

/-- The scan of `unavailList` only ever appends to its accumulator. -/
theorem unavailList_foldl_prefix (avail res : List String) :
    ∀ (slots : List String) (acc : List String),
      ∃ t, slots.foldl (fun acc s =>
        acc ++ (if !avail.contains s then [s] else []) ++
               (if res.contains s then [s] else [])) acc = acc ++ t := by
  intro slots
  induction slots with
  | nil => intro acc; exact ⟨[], by simp⟩
  | cons x xs ih =>
    intro acc
    obtain ⟨t, ht⟩ := ih (acc ++ (if !avail.contains x then [x] else []) ++
      (if res.contains x then [x] else []))
    refine ⟨(if !avail.contains x then [x] else []) ++
      (if res.contains x then [x] else []) ++ t, ?_⟩
    rw [List.foldl_cons, ht]
    simp [List.append_assoc]

/-- With an empty available-set, every requested slot is collected, so a
nonempty slot list yields a nonempty unavailable list. -/
theorem unavailList_avail_nil_ne_nil (slots res : List String) (h : slots ≠ []) :
    unavailList slots [] res ≠ [] := by
  cases slots with
  | nil => exact absurd rfl h
  | cons x xs =>
    unfold unavailList
    obtain ⟨t, ht⟩ := unavailList_foldl_prefix [] res xs
      ([] ++ (if !([] : List String).contains x then [x] else []) ++
       (if res.contains x then [x] else []))
    rw [List.foldl_cons, ht]
    simp

/-- Counterexample to C4: a single create against a snapshot whose
available-set and reserved-set for the specialist are both empty (so the
requested slot is certainly "not explicitly reserved") is refused with no
row inserted, instead of proceeding as the claim states. -/
theorem empty_available_set_blocks_cex :
    (activateBooking sampleCfg
        { cosmetolog := some "Olga", date_order := some "05.03.2025",
          time_set_up := some "11:00" }
        "c" 2025
        (some { slots_by_specialist := [], reserved_slots_by_specialist := [] })
        none [] (fun _ _ => "") (fun _ => none) DBState.empty).1.success = false ∧
    (activateBooking sampleCfg
        { cosmetolog := some "Olga", date_order := some "05.03.2025",
          time_set_up := some "11:00" }
        "c" 2025
        (some { slots_by_specialist := [], reserved_slots_by_specialist := [] })
        none [] (fun _ _ => "") (fun _ => none) DBState.empty).2 = DBState.empty := by
  constructor <;> rfl

/-- Claim C4 (amended): in the primary availability check of the single
create, a slot must appear in the specialist's available-set; with an
empty available-set every requested slot is treated as unavailable
(whatever the reserved-set says), so the create is always refused with no
row inserted. -/
theorem empty_available_set_refuses
    (cfg : ProjectCfg) (resp : ClaudeMainResponse) (clientId : String) (nowYear : Nat)
    (snap : AvailabilitySnapshot) (norm? : Option String)
    (parsedTimes : List (String × Nat)) (procFor : Nat → String → String)
    (snapFor : String → Option AvailabilitySnapshot) (st : DBState)
    (hnd : (resp.double_booking && truthyL resp.specialists_list) = false)
    (hempty : lookupD snap.slots_by_specialist
        ("available_slots_" ++ lowerStr (resp.cosmetolog.getD "")) [] = [])
    (hdur : 1 ≤ (resolveService cfg resp.procedure norm?).1) :
    (activateBooking cfg resp clientId nowYear (some snap) norm? parsedTimes procFor snapFor
        st).1.success = false ∧
    (activateBooking cfg resp clientId nowYear (some snap) norm? parsedTimes procFor snapFor
        st).2 = st := by
  unfold activateBooking
  rw [hnd]
  rw [if_neg (by simp)]
  split
  · exact ⟨rfl, rfl⟩
  · split
    · exact ⟨rfl, rfl⟩
    · split
      · exact ⟨rfl, rfl⟩
      · next bookingTime htime =>
        split
        · exact ⟨rfl, rfl⟩
        · simp only [hempty]
          have hslots : (slotTimes bookingTime (resolveService cfg resp.procedure norm?).1).map
              formatTime ≠ [] := by
            simp only [ne_eq, List.map_eq_nil_iff, slotTimes, List.range_eq_nil]
            omega
          have hcond : (unavailList
              ((slotTimes bookingTime (resolveService cfg resp.procedure norm?).1).map formatTime)
              []
              (lookupD snap.reserved_slots_by_specialist
                ("reserved_slots_" ++ lowerStr (resp.cosmetolog.getD "")) [])).isEmpty
              = false := by
            rcases hx : unavailList _ _ _ with _ | ⟨a, as⟩
            · exact absurd hx (unavailList_avail_nil_ne_nil _ _ hslots)
            · rfl
          rw [if_pos (by rw [hcond]; rfl)]
          exact ⟨rfl, rfl⟩

/-- Witness for C4's amended theorem at the counterexample scenario. -/
theorem empty_available_set_refuses_witness :
    (activateBooking sampleCfg
        { cosmetolog := some "Olga", date_order := some "05.03.2025",
          time_set_up := some "11:00" }
        "c" 2025
        (some { slots_by_specialist := [], reserved_slots_by_specialist := [] })
        none [] (fun _ _ => "") (fun _ => none) ⟨[], 1⟩).1.success = false ∧
    (activateBooking sampleCfg
        { cosmetolog := some "Olga", date_order := some "05.03.2025",
          time_set_up := some "11:00" }
        "c" 2025
        (some { slots_by_specialist := [], reserved_slots_by_specialist := [] })
        none [] (fun _ _ => "") (fun _ => none) ⟨[], 1⟩).2 = ⟨[], 1⟩ :=
  empty_available_set_refuses sampleCfg
    { cosmetolog := some "Olga", date_order := some "05.03.2025",
      time_set_up := some "11:00" }
    "c" 2025 { slots_by_specialist := [], reserved_slots_by_specialist := [] }
    none [] (fun _ _ => "") (fun _ => none) ⟨[], 1⟩
    rfl rfl (by decide)

/-- Claim C8: a single reschedule whose new slot fails the local
availability check returns a failure, leaves the found booking (and every
other row) unchanged in every field, and performs no external-feed write:
the old slot is not cleared and the new slot is not written. -/
theorem single_reschedule_collision_frame
    (cfg : ProjectCfg) (resp : ClaudeMainResponse) (clientId : String) (nowYear : Nat)
    (st : DBState) (oldD newD : PyDate) (oldT newT : Nat) (b : Booking)
    (hod : pyParseDate nowYear resp.date_reject = some oldD)
    (hnd : pyParseDate nowYear resp.date_order = some newD)
    (hcount : ¬ (clientActiveOn st cfg clientId oldD).length > 1)
    (hot : pyParseTime resp.time_reject = some oldT)
    (hnt : pyParseTime resp.time_set_up = some newT)
    (hfind : findClientBookingAt st cfg clientId resp oldD oldT = some b)
    (hbusy : isSlotAvailable st cfg.project_id resp.cosmetolog newD newT
        (b.duration_minutes / 30) (some b.id) = false) :
    (changeSingleBooking cfg resp clientId nowYear st).1.success = false ∧
    (changeSingleBooking cfg resp clientId nowYear st).1.message =
      some "Новое время уже занято" ∧
    (changeSingleBooking cfg resp clientId nowYear st).2.1 = st ∧
    (changeSingleBooking cfg resp clientId nowYear st).2.2 = [] := by
  simp [changeSingleBooking, hod, hnd, hcount, hot, hnt, hfind, hbusy]

/-- Witness for C8: rescheduling Olga's 05.03 11:00 booking onto her own
already-booked 06.03 15:00 slot fails and changes nothing. -/
theorem single_reschedule_collision_frame_witness :
    (changeSingleBooking sampleCfg
        { cosmetolog := some "Olga", date_reject := some "05.03.2025",
          time_reject := some "11:00", date_order := some "06.03.2025",
          time_set_up := some "15:00" }
        "c" 2025
        ⟨[sampleRow 1 "c" "Olga" ⟨2025, 3, 5⟩ 660,
          sampleRow 2 "c" "Olga" ⟨2025, 3, 6⟩ 900], 3⟩).1.success = false ∧
    (changeSingleBooking sampleCfg
        { cosmetolog := some "Olga", date_reject := some "05.03.2025",
          time_reject := some "11:00", date_order := some "06.03.2025",
          time_set_up := some "15:00" }
        "c" 2025
        ⟨[sampleRow 1 "c" "Olga" ⟨2025, 3, 5⟩ 660,
          sampleRow 2 "c" "Olga" ⟨2025, 3, 6⟩ 900], 3⟩).1.message =
      some "Новое время уже занято" ∧
    (changeSingleBooking sampleCfg
        { cosmetolog := some "Olga", date_reject := some "05.03.2025",
          time_reject := some "11:00", date_order := some "06.03.2025",
          time_set_up := some "15:00" }
        "c" 2025
        ⟨[sampleRow 1 "c" "Olga" ⟨2025, 3, 5⟩ 660,
          sampleRow 2 "c" "Olga" ⟨2025, 3, 6⟩ 900], 3⟩).2.1 =
      ⟨[sampleRow 1 "c" "Olga" ⟨2025, 3, 5⟩ 660,
        sampleRow 2 "c" "Olga" ⟨2025, 3, 6⟩ 900], 3⟩ ∧
    (changeSingleBooking sampleCfg
        { cosmetolog := some "Olga", date_reject := some "05.03.2025",
          time_reject := some "11:00", date_order := some "06.03.2025",
          time_set_up := some "15:00" }
        "c" 2025
        ⟨[sampleRow 1 "c" "Olga" ⟨2025, 3, 5⟩ 660,
          sampleRow 2 "c" "Olga" ⟨2025, 3, 6⟩ 900], 3⟩).2.2 = [] :=
  single_reschedule_collision_frame sampleCfg
    { cosmetolog := some "Olga", date_reject := some "05.03.2025",
      time_reject := some "11:00", date_order := some "06.03.2025",
      time_set_up := some "15:00" }
    "c" 2025
    ⟨[sampleRow 1 "c" "Olga" ⟨2025, 3, 5⟩ 660,
      sampleRow 2 "c" "Olga" ⟨2025, 3, 6⟩ 900], 3⟩
    ⟨2025, 3, 5⟩ ⟨2025, 3, 6⟩ 660 900 (sampleRow 1 "c" "Olga" ⟨2025, 3, 5⟩ 660)
    (by decide) (by decide) (by decide) (by decide) (by decide) (by decide) (by decide)

/-- Counterexample to C7: client "c" has two active bookings on
05.03.2025 (Olga 11:00 and Anna 12:00) and no source time is given, and
another client holds Anna's 12:00 slot on the target date 06.03.2025.
The bulk transfer moves only Olga's booking: the operation reports
success, yet Anna's row is still on the old date — not all bookings were
transferred. -/
theorem bulk_transfer_not_all_cex :
    (changeSingleBooking sampleCfg
        { date_reject := some "05.03.2025", date_order := some "06.03.2025" }
        "c" 2025
        ⟨[sampleRow 1 "c" "Olga" ⟨2025, 3, 5⟩ 660,
          sampleRow 2 "c" "Anna" ⟨2025, 3, 5⟩ 720,
          sampleRow 3 "x" "Anna" ⟨2025, 3, 6⟩ 720], 4⟩).1.success = true ∧
    sampleRow 2 "c" "Anna" ⟨2025, 3, 5⟩ 720 ∈
      (changeSingleBooking sampleCfg
        { date_reject := some "05.03.2025", date_order := some "06.03.2025" }
        "c" 2025
        ⟨[sampleRow 1 "c" "Olga" ⟨2025, 3, 5⟩ 660,
          sampleRow 2 "c" "Anna" ⟨2025, 3, 5⟩ 720,
          sampleRow 3 "x" "Anna" ⟨2025, 3, 6⟩ 720], 4⟩).2.1.bookings := by
  constructor <;> decide

/-- How one row may change under the bulk transfer: either untouched, or
moved to the new date with its own time, specialist, service, duration,
status and id preserved (only the client name/phone may be refreshed from
the request). -/
def TransferredTo (newDate : PyDate) (b b' : Booking) : Prop :=
  b'.id = b.id ∧ b'.appointment_time = b.appointment_time ∧
  b'.appointment_date = newDate ∧ b'.specialist_name = b.specialist_name ∧
  b'.duration_minutes = b.duration_minutes ∧ b'.status = b.status ∧
  b'.service_name = b.service_name ∧ b'.client_id = b.client_id ∧
  b'.project_id = b.project_id ∧ b'.created_at = b.created_at

/-- `TransferredTo` absorbs further transfers to the same date. -/
theorem transferredTo_trans (newDate : PyDate) (a b c : Booking)
    (h1 : TransferredTo newDate a b) (h2 : TransferredTo newDate b c) :
    TransferredTo newDate a c := by
  obtain ⟨i1, t1, d1, s1, u1, st1, v1, c1, p1, r1⟩ := h1
  obtain ⟨i2, t2, d2, s2, u2, st2, v2, c2, p2, r2⟩ := h2
  exact ⟨i2.trans i1, t2.trans t1, d2, s2.trans s1, u2.trans u1, st2.trans st1,
    v2.trans v1, c2.trans c1, p2.trans p1, r2.trans r1⟩

/-- Every row in the state produced by the bulk-transfer loop is either
an untouched original row or an original row moved to the new date with
its own time kept. -/
theorem transferLoop_rows (cfg : ProjectCfg) (resp : ClaudeMainResponse) (newDate : PyDate) :
    ∀ (targets : List Booking) (st : DBState) (b' : Booking),
      b' ∈ (transferLoop cfg resp newDate targets st).2.2.1.bookings →
      ∃ b ∈ st.bookings, b' = b ∨ TransferredTo newDate b b' := by
  intro targets
  induction targets with
  | nil => intro st b' hb; exact ⟨b', hb, Or.inl rfl⟩
  | cons x xs ih =>
    intro st b' hb
    rw [transferLoop] at hb
    split at hb
    · exact ih st b' (by simpa using hb)
    · have hb' : b' ∈ (transferLoop cfg resp newDate xs
          (applyTransfer resp newDate x.id st)).2.2.1.bookings := by
        simpa using hb
      obtain ⟨m, hm, hrel⟩ := ih _ b' hb'
      have : ∃ y ∈ st.bookings, m = y ∨ TransferredTo newDate y m := by
        simp only [applyTransfer, List.mem_map] at hm
        obtain ⟨y, hy, hmy⟩ := hm
        by_cases hid : (y.id == x.id) = true
        · rw [if_pos hid] at hmy
          exact ⟨y, hy, Or.inr (by rw [← hmy]; exact ⟨rfl, rfl, rfl, rfl, rfl, rfl, rfl, rfl, rfl, rfl⟩)⟩
        · rw [if_neg hid] at hmy
          exact ⟨y, hy, Or.inl hmy.symm⟩
      obtain ⟨y, hy, hcase⟩ := this
      rcases hcase with hmy | hty
      · exact ⟨y, hy, hmy ▸ hrel⟩
      · rcases hrel with hbm | htm
        · exact ⟨y, hy, Or.inr (by rw [hbm]; exact hty)⟩
        · exact ⟨y, hy, Or.inr (transferredTo_trans newDate y m b' hty htm)⟩

/-- Claim C7 (amended): when the client has more than one active booking
on the source date, the reschedule takes the bulk-transfer path, and
every row of the resulting state is either an untouched original row or
an original row moved to the new date keeping its own time-of-day
(bookings whose new slot fails the per-booking availability check are
left fully unchanged, so not necessarily all are transferred). -/
theorem bulk_transfer_keeps_times
    (cfg : ProjectCfg) (resp : ClaudeMainResponse) (clientId : String) (nowYear : Nat)
    (st : DBState) (oldD newD : PyDate)
    (hod : pyParseDate nowYear resp.date_reject = some oldD)
    (hnd : pyParseDate nowYear resp.date_order = some newD)
    (hmany : (clientActiveOn st cfg clientId oldD).length > 1) :
    ∀ b' ∈ (changeSingleBooking cfg resp clientId nowYear st).2.1.bookings,
      ∃ b ∈ st.bookings, b' = b ∨ TransferredTo newD b b' := by
  have hstate : ∀ (targets : List Booking) (st0 : DBState),
      (transferMultipleBookings cfg resp newD targets st0).2.1 =
        (transferLoop cfg resp newD targets st0).2.2.1 := by
    intro targets st0
    simp only [transferMultipleBookings]
    split <;> rfl
  intro b' hb
  simp only [changeSingleBooking, hod, hnd, hmany, if_true, hstate] at hb
  exact transferLoop_rows cfg resp newD (clientActiveOn st cfg clientId oldD) st b' hb

/-- Witness for C7's amended theorem: in the counterexample scenario the
transferred Olga row is an original row moved to 06.03.2025 with its
11:00 time kept. -/
theorem bulk_transfer_keeps_times_witness :
    ∃ b ∈ (⟨[sampleRow 1 "c" "Olga" ⟨2025, 3, 5⟩ 660,
             sampleRow 2 "c" "Anna" ⟨2025, 3, 5⟩ 720,
             sampleRow 3 "x" "Anna" ⟨2025, 3, 6⟩ 720], 4⟩ : DBState).bookings,
      sampleRow 1 "c" "Olga" ⟨2025, 3, 6⟩ 660 = b ∨
      TransferredTo ⟨2025, 3, 6⟩ b (sampleRow 1 "c" "Olga" ⟨2025, 3, 6⟩ 660) :=
  bulk_transfer_keeps_times sampleCfg
    { date_reject := some "05.03.2025", date_order := some "06.03.2025" }
    "c" 2025
    ⟨[sampleRow 1 "c" "Olga" ⟨2025, 3, 5⟩ 660,
      sampleRow 2 "c" "Anna" ⟨2025, 3, 5⟩ 720,
      sampleRow 3 "x" "Anna" ⟨2025, 3, 6⟩ 720], 4⟩
    ⟨2025, 3, 5⟩ ⟨2025, 3, 6⟩ (by decide) (by decide) (by decide)
    (sampleRow 1 "c" "Olga" ⟨2025, 3, 6⟩ 660) (by decide)

/-- Counterexample to C1: the create path validates only against the
external snapshot, never against the local store, so with a stale
snapshot (the feed still lists 11:00 as available after the first write)
two sequential single creates for the same specialist, date and time both
succeed, and the resulting database state holds two overlapping active
rows for (p1, Olga, 05.03.2025). -/
theorem slot_invariant_violable_cex :
    conflictFree
      ((activateBooking sampleCfg
          { cosmetolog := some "Olga", date_order := some "05.03.2025",
            time_set_up := some "11:00" }
          "c1" 2025
          (some { slots_by_specialist := [("available_slots_olga", ["11:00"])],
                  reserved_slots_by_specialist := [] })
          none [] (fun _ _ => "") (fun _ => none)
          (activateBooking sampleCfg
            { cosmetolog := some "Olga", date_order := some "05.03.2025",
              time_set_up := some "11:00" }
            "c1" 2025
            (some { slots_by_specialist := [("available_slots_olga", ["11:00"])],
                    reserved_slots_by_specialist := [] })
            none [] (fun _ _ => "") (fun _ => none)
            DBState.empty).2).2.bookings) = false := by
  decide

/-- Two 30-minute-aligned bookings whose minute intervals intersect share
one of the unit slot start-times both expand to. -/
theorem shared_slot (t u dn du : Nat)
    (ht : t % 30 = 0) (hu : u % 30 = 0) (ht14 : t < 1440) (hu14 : u < 1440)
    (hdu : du % 30 = 0)
    (hov : max t u < min (t + 30 * dn) (u + du)) :
    ∃ s, s ∈ slotTimes t dn ∧ s ∈ slotTimes u (du / 30) := by
  refine ⟨max t u, ?_, ?_⟩
  · refine List.mem_map.mpr ⟨(max t u - t) / 30, List.mem_range.mpr ?_, ?_⟩
    · omega
    · omega
  · refine List.mem_map.mpr ⟨(max t u - u) / 30, List.mem_range.mpr ?_, ?_⟩
    · omega
    · omega

/-- Split a Boolean conjunction known to be true. -/
theorem andSplit {a b : Bool} (h : (a && b) = true) : a = true ∧ b = true := by
  cases a <;> cases b <;> simp_all

/-- Join two Boolean facts into their conjunction. -/
theorem andJoin {a b : Bool} (h1 : a = true) (h2 : b = true) : (a && b) = true := by
  rw [h1, h2]; rfl

/-- Appending one row preserves the non-overlap invariant when the new
row conflicts with no existing row. -/
theorem conflictFree_append_singleton (b : Booking) :
    ∀ (l : List Booking), conflictFree l = true →
      (∀ a ∈ l, bookingsConflict a b = false) →
      conflictFree (l ++ [b]) = true := by
  intro l
  induction l with
  | nil => intro _ _; rfl
  | cons x xs ih =>
    intro h hall
    rw [List.cons_append, conflictFree]
    have h1 := (andSplit h).1
    have h2 := (andSplit h).2
    refine andJoin ?_ (ih h2 (fun a ha => hall a (List.mem_cons_of_mem x ha)))
    rw [List.all_append]
    refine andJoin h1 ?_
    simp [hall x (List.mem_cons_self x xs)]

/-- An empty unavailable list means every checked slot was in the
available-set and out of the reserved-set. -/
theorem unavailList_nil_mem (avail res : List String) :
    ∀ (slots : List String), unavailList slots avail res = [] →
      ∀ s ∈ slots, avail.contains s = true ∧ res.contains s = false := by
  intro slots
  induction slots with
  | nil => intro _ s hs; cases hs
  | cons x xs ih =>
    intro h s hs
    unfold unavailList at h
    rw [List.foldl_cons] at h
    have hacc : ∀ (acc : List String), acc ≠ [] →
        List.foldl (fun acc s => acc ++ (if !avail.contains s then [s] else []) ++
          (if res.contains s then [s] else [])) acc xs ≠ [] := by
      intro acc hne hfe
      obtain ⟨tl, htl⟩ := unavailList_foldl_prefix avail res xs acc
      rw [htl] at hfe
      exact hne (List.append_eq_nil.mp hfe).1
    cases hca : avail.contains x with
    | false =>
      exfalso
      rw [hca] at h
      exact hacc _ (by simp) h
    | true =>
      cases hcr : res.contains x with
      | true =>
        exfalso
        rw [hca, hcr] at h
        exact hacc _ (by simp) h
      | false =>
        rw [hca, hcr] at h
        rcases List.mem_cons.mp hs with hx | hxs
        · subst hx; exact ⟨hca, hcr⟩
        · refine ih ?_ s hxs
          unfold unavailList
          simpa using h

/-- Claim C1 (amended): the create path enforces nothing against the
local store, so the non-overlap invariant can be violated by a stale
snapshot (see the counterexample); it is preserved by a single-booking
create whenever the snapshot is consistent with the local store — its
reserved-set names every 30-minute slot occupied by an existing active
row of the requested specialist on the requested date — and all times
involved sit on the 30-minute grid. -/
theorem single_create_preserves_no_overlap
    (cfg : ProjectCfg) (resp : ClaudeMainResponse) (clientId : String) (nowYear : Nat)
    (snap : AvailabilitySnapshot) (norm? : Option String)
    (parsedTimes : List (String × Nat)) (procFor : Nat → String → String)
    (snapFor : String → Option AvailabilitySnapshot) (st : DBState)
    (hnd : (resp.double_booking && truthyL resp.specialists_list) = false)
    (hinv : conflictFree st.bookings = true)
    (hwf : ∀ a ∈ st.bookings, a.status = "active" →
      a.appointment_time % 30 = 0 ∧ a.appointment_time < 1440 ∧
      a.duration_minutes % 30 = 0)
    (htime : ∀ t0, pyParseTimeStr (resp.time_set_up.getD "") = some t0 → t0 % 30 = 0)
    (hsnap : ∀ d, pyParseDateActivate nowYear (resp.date_order.getD "") = some d →
      ∀ a ∈ st.bookings, a.status = "active" → a.project_id = cfg.project_id →
      a.specialist_name = resp.cosmetolog.getD "" → a.appointment_date = d →
      ∀ s ∈ slotTimes a.appointment_time (a.duration_minutes / 30),
        (lookupD snap.reserved_slots_by_specialist
          ("reserved_slots_" ++ lowerStr (resp.cosmetolog.getD "")) []).contains
          (formatTime s) = true) :
    conflictFree
      ((activateBooking cfg resp clientId nowYear (some snap) norm? parsedTimes procFor
          snapFor st).2.bookings) = true := by
  unfold activateBooking
  rw [hnd]
  rw [if_neg (by simp)]
  split
  · exact hinv
  · split
    · exact hinv
    · next bookingDate hdate =>
      split
      · exact hinv
      · next bookingTime htparse =>
        split
        · exact hinv
        · dsimp only
          split
          · exact hinv
          · next hnotempty =>
            show conflictFree (st.bookings ++
              [mkSingleRow cfg resp clientId bookingDate bookingTime
                (resolveService cfg resp.procedure norm?).1
                (resolveService cfg resp.procedure norm?).2 st.nextId]) = true
            refine conflictFree_append_singleton _ st.bookings hinv ?_
            intro a ha
            by_contra hcon
            rw [Bool.not_eq_false] at hcon
            unfold bookingsConflict at hcon
            have c1 := (andSplit hcon).1
            have hovd := (andSplit hcon).2
            have c2 := (andSplit c1).1
            have c3 := (andSplit c2).1
            have c4 := (andSplit c3).1
            have hstat : a.status = "active" := by
              have := (andSplit c4).1
              simpa [mkSingleRow] using this
            have hproj : a.project_id = cfg.project_id := by
              have := (andSplit c3).2
              simpa [mkSingleRow] using this
            have hspec : a.specialist_name = resp.cosmetolog.getD "" := by
              have := (andSplit c2).2
              simpa [mkSingleRow] using this
            have hdateq : a.appointment_date = bookingDate := by
              have := (andSplit c1).2
              simpa [mkSingleRow] using this
            have hov : max a.appointment_time bookingTime <
                min (a.appointment_time + a.duration_minutes)
                    (bookingTime + (resolveService cfg resp.procedure norm?).1 * 30) := by
              simpa [mkSingleRow] using hovd
            obtain ⟨ha30, ha14, had30⟩ := hwf a ha hstat
            have ht30 := htime bookingTime htparse
            have ht14 : bookingTime < 1440 := parseHMchars_lt _ _ htparse
            obtain ⟨s, hs1, hs2⟩ := shared_slot bookingTime a.appointment_time
              (resolveService cfg resp.procedure norm?).1 a.duration_minutes
              ht30 ha30 ht14 ha14 had30 (by omega)
            have hresmem := hsnap bookingDate hdate a ha hstat hproj hspec hdateq s hs2
            have hempty : unavailList
                ((slotTimes bookingTime (resolveService cfg resp.procedure norm?).1).map
                  formatTime)
                (lookupD snap.slots_by_specialist
                  ("available_slots_" ++ lowerStr (resp.cosmetolog.getD "")) [])
                (lookupD snap.reserved_slots_by_specialist
                  ("reserved_slots_" ++ lowerStr (resp.cosmetolog.getD "")) []) = [] := by
              rcases hu : unavailList _ _ _ with _ | ⟨z, zs⟩
              · rfl
              · exfalso
                apply hnotempty
                rw [hu]
                rfl
            have hforall := unavailList_nil_mem _ _ _ hempty (formatTime s)
              (List.mem_map.mpr ⟨s, hs1, rfl⟩)
            rw [hforall.2] at hresmem
            cases hresmem

/-- Witness for C1's amended theorem: with Olga's existing 11:00 slot
correctly reserved in the snapshot, creating her 12:00 booking keeps the
state conflict-free. -/
theorem single_create_preserves_no_overlap_witness :
    conflictFree
      ((activateBooking sampleCfg
          { cosmetolog := some "Olga", date_order := some "05.03.2025",
            time_set_up := some "12:00" }
          "c2" 2025
          (some { slots_by_specialist := [("available_slots_olga", ["12:00"])],
                  reserved_slots_by_specialist := [("reserved_slots_olga", ["11:00"])] })
          none [] (fun _ _ => "") (fun _ => none)
          ⟨[sampleRow 1 "c" "Olga" ⟨2025, 3, 5⟩ 660], 2⟩).2.bookings) = true :=
  single_create_preserves_no_overlap sampleCfg
    { cosmetolog := some "Olga", date_order := some "05.03.2025",
      time_set_up := some "12:00" }
    "c2" 2025
    { slots_by_specialist := [("available_slots_olga", ["12:00"])],
      reserved_slots_by_specialist := [("reserved_slots_olga", ["11:00"])] }
    none [] (fun _ _ => "") (fun _ => none)
    ⟨[sampleRow 1 "c" "Olga" ⟨2025, 3, 5⟩ 660], 2⟩
    rfl (by decide) (by decide)
    (by intro t0 h0
        have h720 : some (720 : Nat) = some t0 := by rw [← h0]; decide
        injection h720 with h720
        omega)
    (by intro d hd
        have hd5 : some (⟨2025, 3, 5⟩ : PyDate) = some d := by rw [← hd]; decide
        injection hd5 with hd5
        subst hd5
        decide)
